import Mathlib

/-!
Shallow embedding of the Astrology API service (src/main.py): the zodiac
sign-detection handler, the horoscope-generation handler and the readings
listing handler, with the external document store modelled as an explicit
function parameter returning `Except`.
-/

namespace Astro

/-- Leap-year test, as Python's `datetime.date` validity uses it. -/
def isLeap (y : Nat) : Bool :=
  (y % 4 == 0 && y % 100 != 0) || (y % 400 == 0)

/-- Number of days of month `m` in year `y`, as `datetime.date` validates. -/
def daysInMonth (y m : Nat) : Nat :=
  if m == 2 then (if isLeap y then 29 else 28)
  else if m == 4 || m == 6 || m == 9 || m == 11 then 30
  else 31

/-- Validity of `date(y, m, d)`: Python raises `ValueError` exactly when this is false. -/
def validDate (y m d : Nat) : Bool :=
  1 ≤ m && m ≤ 12 && 1 ≤ d && d ≤ daysInMonth y m

/-- Order key of a month/day pair within a single year: Python's `date` comparison
restricted to dates sharing a year is lexicographic on (month, day). -/
def dateKey (m d : Nat) : Nat := m * 100 + d

/-- The `ZODIAC_DATES` table of src/main.py lines 58-71: sign label, start date
(year, month, day) and end date (year, month, day). Capricorn's start is dated
in year 2000, its end in 2001; every other entry lies inside 2001. -/
def ZODIAC_DATES : List (String × (Nat × Nat × Nat) × (Nat × Nat × Nat)) :=
  [ ("capricorn", (2000, 12, 22), (2001, 1, 19)),
    ("aquarius", (2001, 1, 20), (2001, 2, 18)),
    ("pisces", (2001, 2, 19), (2001, 3, 20)),
    ("aries", (2001, 3, 21), (2001, 4, 19)),
    ("taurus", (2001, 4, 20), (2001, 5, 20)),
    ("gemini", (2001, 5, 21), (2001, 6, 20)),
    ("cancer", (2001, 6, 21), (2001, 7, 22)),
    ("leo", (2001, 7, 23), (2001, 8, 22)),
    ("virgo", (2001, 8, 23), (2001, 9, 22)),
    ("libra", (2001, 9, 23), (2001, 10, 22)),
    ("scorpio", (2001, 10, 23), (2001, 11, 21)),
    ("sagittarius", (2001, 11, 22), (2001, 12, 21)) ]

/-- `SIGNS = [s for s, _ in ZODIAC_DATES]` (src/main.py line 73). -/
def SIGNS : List String := ZODIAC_DATES.map (fun p => p.1)

/-- Outcome of the `/api/detect-sign` handler: a 200 response carrying a sign,
an `HTTPException` the handler raises deliberately, or an uncaught Python
exception (surfaced by the framework as a 500, i.e. a crash). -/
inductive DetectResult where
  | sign (s : String)
  | httpError (code : Nat) (detail : String)
  | crash (msg : String)
  deriving Repr, DecidableEq

/-- The `for sign, (start_ref, end_ref) in ZODIAC_DATES` loop of src/main.py
lines 85-90: both endpoints are re-dated into 2001 and the first entry with
`start <= ref <= end` wins. -/
def findSign (ref : Nat) :
    List (String × (Nat × Nat × Nat) × (Nat × Nat × Nat)) → Option String
  | [] => none
  | (sign, (_, sm, sd), (_, em, ed)) :: rest =>
    if dateKey sm sd ≤ ref ∧ ref ≤ dateKey em ed then some sign
    else findSign ref rest

/-- The `POST /api/detect-sign` handler `detect_sign` (src/main.py lines 79-94).
The pydantic-parsed `BirthInfo` body is passed as its `name` field and the
year, month and day of its `birthdate`. The handler first builds
`ref = date(2001, d.month, d.day)`, which raises `ValueError` (an uncaught
crash, since 2001 is not a leap year) when the month/day is invalid in 2001;
then it scans `ZODIAC_DATES`, falls back to the explicit late-December
capricorn check, and finally raises `HTTPException(400, "Invalid date")`. -/
def detect_sign (name : Option String) (y m d : Nat) : DetectResult :=
  let _ := name
  let _ := y
  if validDate 2001 m d then
    let ref := dateKey m d
    match findSign ref ZODIAC_DATES with
    | some s => DetectResult.sign s
    | none =>
      if dateKey 12 22 ≤ ref ∧ ref ≤ dateKey 12 31 then DetectResult.sign "capricorn"
      else DetectResult.httpError 400 "Invalid date"
  else DetectResult.crash "ValueError: day is out of range for month"

/-- One step of Python's `str.title()`: an alphabetic character is uppercased
when the previous character was not cased, lowercased otherwise. -/
def pyTitleAux : Bool → List Char → List Char
  | _, [] => []
  | prevCased, c :: rest =>
    if c.isAlpha then
      (if prevCased then c.toLower else c.toUpper) :: pyTitleAux true rest
    else
      c :: pyTitleAux false rest

/-- Python's `str.title()` restricted to ASCII strings (all strings the
handlers titlecase are ASCII). -/
def pyTitle (s : String) : String := String.mk (pyTitleAux false s.data)

/-- Python's `str.lower()` restricted to ASCII strings: every character is
lowercased. -/
def pyLower (s : String) : String := String.mk (s.data.map Char.toLower)

/-- Modelled from the spec: the `Reading` record of schemas.py (a file not
present under src/), per spec section 3: `{ sign, date, content }`, matching
the keyword construction `Reading(sign=sign, date=today, content=content)`
in src/main.py line 112. -/
structure Reading where
  sign : String
  date : String
  content : String
  deriving Repr, DecidableEq

/-- Outcome of the `/api/horoscope` handler: the 200 JSON response
`(date, sign, scope, content, id)` or a raised `HTTPException`. -/
inductive HoroResult where
  | ok (date sign scope content : String) (id : Option String)
  | httpError (code : Nat) (detail : String)
  deriving Repr, DecidableEq

/-- The horoscope content f-string of src/main.py lines 107-111, with the
UTC date string passed as `today`. -/
def genContent (sign scope today : String) : String :=
  (pyTitle sign ++ " " ++ pyTitle scope ++ " Horoscope for " ++ today ++ ": ") ++
  "Energy favors thoughtful planning. Stay open to small surprises; " ++
  "a conversation could point you toward a useful opportunity."

/-- The `POST /api/horoscope` handler `get_horoscope` (src/main.py lines
100-117). The external `create_document` capability is the `createDoc`
parameter; a raised store exception is an `Except.error`, caught by the
handler's `try/except` and converted to `reading_id = None`. -/
def get_horoscope (req_sign req_scope today : String)
    (createDoc : String → Reading → Except String String) : HoroResult :=
  let sign := pyLower req_sign
  if sign ∈ SIGNS then
    let content := genContent sign req_scope today
    let reading : Reading := { sign := sign, date := today, content := content }
    let reading_id : Option String :=
      match createDoc "reading" reading with
      | Except.ok i => some i
      | Except.error _ => none
    HoroResult.ok today sign req_scope content reading_id
  else HoroResult.httpError 400 "Unknown sign"

/-- Documents returned by the store are Python dicts with string values,
modelled as ordered association lists. -/
abbrev PyDict := List (String × String)

/-- Python `k in d` / `d[k]` lookup on a dict. -/
def dictGet (d : PyDict) (k : String) : Option String :=
  match d.find? (fun kv => kv.1 == k) with
  | some kv => some kv.2
  | none => none

/-- Python `d.pop(k)`: the dict with key `k` removed. -/
def dictPop (d : PyDict) (k : String) : PyDict :=
  d.filter (fun kv => kv.1 != k)

/-- Python `d[k] = v`: overwrite in place when `k` exists, else append. -/
def dictSet (d : PyDict) (k v : String) : PyDict :=
  if (d.find? (fun kv => kv.1 == k)).isSome then
    d.map (fun kv => if kv.1 == k then (k, v) else kv)
  else d ++ [(k, v)]

/-- The per-document conversion of src/main.py lines 125-127:
`if "_id" in d: d["id"] = str(d.pop("_id"))`. -/
def convertDoc (d : PyDict) : PyDict :=
  match dictGet d "_id" with
  | some v => dictSet (dictPop d "_id") "id" v
  | none => d

/-- The filter expression `{"sign": sign} if sign else {}` of src/main.py
line 121: Python truthiness makes both `None` and the empty string fall to
the empty dict. -/
def buildFilt : Option String → PyDict
  | none => []
  | some s => if s.isEmpty then [] else [("sign", s)]

/-- An HTTP response of `/api/readings`: status code and the `items` list. -/
structure HttpResponse where
  status : Nat
  items : List PyDict
  deriving Repr, DecidableEq

/-- The `GET /api/readings` handler `list_readings` (src/main.py lines
119-130). The external `get_documents` capability is the `getDocs`
parameter (collection, filter, limit); a raised store exception is an
`Except.error`, caught by the bare `except` and converted to
`{"items": []}`. Both branches return normally, i.e. with status 200. -/
def list_readings (getDocs : String → PyDict → Nat → Except String (List PyDict))
    (sign : Option String) : HttpResponse :=
  let filt := buildFilt sign
  match getDocs "reading" filt 50 with
  | Except.ok docs => { status := 200, items := docs.map convertDoc }
  | Except.error _ => { status := 200, items := [] }

/-- Modelled from the spec: the fixed body text of the horoscope template
of spec section 4.2, as one string. -/
def specFixedBody : String :=
  "Energy favors thoughtful planning. Stay open to small surprises; a conversation could point you toward a useful opportunity."

/-- Modelled from the spec: the output template of spec section 4.2,
`"<Sign title-case> <Scope title-case> Horoscope for <YYYY-MM-DD>: <fixed body text>"`,
with the four interpolated fields (sign, scope, date, fixed body) in that
order. -/
def specTemplate (sign scope dateStr : String) : String :=
  pyTitle sign ++ " " ++ pyTitle scope ++ " Horoscope for " ++ dateStr ++ ": " ++
    specFixedBody

/-- Whether `sub` occurs contiguously inside `l`. -/
def listInfixOf (sub : List Char) : List Char → Bool
  | [] => sub.isEmpty
  | c :: rest => sub.isPrefixOf (c :: rest) || listInfixOf sub rest

/-- Boolean substring test: `sub` occurs contiguously inside `s`. -/
def strContains (s sub : String) : Bool := listInfixOf sub.data s.data

/-- A store stub that accepts a reading exactly when it satisfies the spec's
Reading invariant (sign among the twelve canonical labels, non-empty
content); used to observe the reading the handler persists. -/
def invariantCheckingStore : String → Reading → Except String String :=
  fun _ r =>
    if r.sign ∈ SIGNS ∧ r.content ≠ "" then Except.ok "stored"
    else Except.error "invariant violated"

/-! Helper lemmas shared by the claim theorems. -/

/-- String concatenation is associative. -/
theorem str_append_assoc (a b c : String) : a ++ b ++ c = a ++ (b ++ c) := by
  apply String.ext
  simp [String.data_append]

/-- The generated horoscope content is never the empty string: it always
carries the fixed body text. -/
theorem genContent_ne_empty (a b c : String) : genContent a b c ≠ "" := by
  intro h
  have hd : (genContent a b c).data = String.data "" := by rw [h]
  unfold genContent at hd
  simp [String.data_append] at hd

/-! Claim theorems. -/

/-- Claim C1 fails on the code: the twelve intervals do not cover the year.
The loop's capricorn test re-dates both endpoints into 2001, making its
condition `Dec 22 <= ref <= Jan 19` unsatisfiable, and the late-December
fallback covers only Dec 22-31, so every January 1-19 date reaches the
supposedly unreachable 400 branch (here Jan 10); moreover Feb 29 crashes
with an uncaught `ValueError` because reference year 2001 is not a leap
year, so only 365 of the 366 day values are even comparable. -/
theorem detect_sign_gap_and_crash :
    detect_sign none 2005 1 10 = DetectResult.httpError 400 "Invalid date" ∧
    detect_sign none 2000 2 29 =
      DetectResult.crash "ValueError: day is out of range for month" := by
  exact ⟨rfl, rfl⟩

/-- Claim C2 fails on the code at its first boundary value: January 1 yields
the 400 "Invalid date" error, not "capricorn" (the capricorn interval's
January half is unreachable); the other three boundary values March 21,
December 22 and July 22 behave as the claim states. -/
theorem detect_sign_boundary_values :
    detect_sign none 2001 1 1 = DetectResult.httpError 400 "Invalid date" ∧
    detect_sign none 2001 3 21 = DetectResult.sign "aries" ∧
    detect_sign none 2001 12 22 = DetectResult.sign "capricorn" ∧
    detect_sign none 2001 7 22 = DetectResult.sign "cancer" := by
  exact ⟨rfl, rfl, rfl, rfl⟩

/-- Claim C3: `POST /api/horoscope` fails with status 400 exactly when the
request's sign, lowercased, is not among the twelve canonical labels; in
particular "dragon" is rejected with 400 while the case variants "Leo" and
"LEO" are accepted, for every scope, date and store. -/
theorem get_horoscope_400_iff (s sc t : String)
    (st : String → Reading → Except String String) :
    ((∃ d, get_horoscope s sc t st = HoroResult.httpError 400 d) ↔ pyLower s ∉ SIGNS) ∧
    (∃ d, get_horoscope "dragon" sc t st = HoroResult.httpError 400 d) ∧
    (¬ ∃ d, get_horoscope "Leo" sc t st = HoroResult.httpError 400 d) ∧
    (¬ ∃ d, get_horoscope "LEO" sc t st = HoroResult.httpError 400 d) := by
  have key : ∀ u : String,
      (∃ d, get_horoscope u sc t st = HoroResult.httpError 400 d) ↔ pyLower u ∉ SIGNS := by
    intro u
    unfold get_horoscope
    by_cases h : pyLower u ∈ SIGNS <;> simp [h]
  refine ⟨key s, (key "dragon").mpr (by decide), ?_, ?_⟩
  · rw [key "Leo"]
    simp only [not_not]
    decide
  · rw [key "LEO"]
    simp only [not_not]
    decide

/-- Claim C4: for every sign, scope and date string the generated content
equals the spec's template (sign title-case, scope title-case, the fixed
literal "Horoscope for", the date, and the fixed body, in that order), and
the concrete instance for ("leo", "daily", "2024-01-01") contains the
substrings "Leo", "Daily" and "2024-01-01". -/
theorem horoscope_template (s sc t : String) :
    genContent s sc t = specTemplate s sc t ∧
    strContains (genContent "leo" "daily" "2024-01-01") "Leo" = true ∧
    strContains (genContent "leo" "daily" "2024-01-01") "Daily" = true ∧
    strContains (genContent "leo" "daily" "2024-01-01") "2024-01-01" = true := by
  refine ⟨?_, by decide, by decide, by decide⟩
  unfold genContent specTemplate specFixedBody
  rw [str_append_assoc]
  congr 1

/-- Claim C5: when every store call fails, `POST /api/horoscope` with a
valid sign still succeeds, returning the generated content with a null id,
and `GET /api/readings` returns status 200 with an empty items list —
neither handler propagates the store error. -/
theorem store_failure_degrades (s sc t : String) (q : Option String)
    (createDoc : String → Reading → Except String String)
    (getDocs : String → PyDict → Nat → Except String (List PyDict))
    (hc : ∀ c r, ∃ e, createDoc c r = Except.error e)
    (hg : ∀ c f n, ∃ e, getDocs c f n = Except.error e)
    (hs : pyLower s ∈ SIGNS) :
    get_horoscope s sc t createDoc =
      HoroResult.ok t (pyLower s) sc (genContent (pyLower s) sc t) none ∧
    list_readings getDocs q = { status := 200, items := [] } := by
  constructor
  · unfold get_horoscope
    obtain ⟨e, he⟩ := hc "reading"
      { sign := pyLower s, date := t, content := genContent (pyLower s) sc t }
    simp [hs, he]
  · unfold list_readings
    obtain ⟨e, he⟩ := hg "reading" (buildFilt q) 50
    simp [he]

/-- Witness for C5 at concrete inputs: sign "leo", an always-failing store. -/
theorem store_failure_degrades_witness :
    get_horoscope "leo" "daily" "2024-01-01" (fun _ _ => Except.error "down") =
      HoroResult.ok "2024-01-01" "leo" "daily"
        (genContent "leo" "daily" "2024-01-01") none ∧
    list_readings (fun _ _ _ => Except.error "down") (some "leo") =
      { status := 200, items := [] } :=
  store_failure_degrades "leo" "daily" "2024-01-01" (some "leo")
    (fun _ _ => Except.error "down") (fun _ _ _ => Except.error "down")
    (fun _ _ => ⟨"down", rfl⟩) (fun _ _ _ => ⟨"down", rfl⟩) (by decide)

/-- Claim C6: horoscope generation is deterministic — two runs of the
handler on the same (sign, scope, date), even against different stores,
return identical content strings. -/
theorem content_deterministic (s sc t : String)
    (st₁ st₂ : String → Reading → Except String String)
    (d₁ sg₁ c₁ d₂ sg₂ c₂ : String) (id₁ id₂ : Option String)
    (h₁ : get_horoscope s sc t st₁ = HoroResult.ok d₁ sg₁ sc c₁ id₁)
    (h₂ : get_horoscope s sc t st₂ = HoroResult.ok d₂ sg₂ sc c₂ id₂) :
    c₁ = c₂ := by
  unfold get_horoscope at h₁ h₂
  by_cases h : pyLower s ∈ SIGNS
  · simp only [h, if_pos] at h₁ h₂
    rw [HoroResult.ok.injEq] at h₁ h₂
    rw [← h₁.2.2.2.1, ← h₂.2.2.2.1]
  · simp [h] at h₁

/-- Witness for C6 at concrete inputs: sign "leo" against a succeeding and
a failing store. -/
theorem content_deterministic_witness :
    genContent "leo" "daily" "2024-01-01" = genContent "leo" "daily" "2024-01-01" :=
  content_deterministic "leo" "daily" "2024-01-01"
    (fun _ _ => Except.ok "1") (fun _ _ => Except.error "down")
    "2024-01-01" "leo" (genContent "leo" "daily" "2024-01-01")
    "2024-01-01" "leo" (genContent "leo" "daily" "2024-01-01")
    (some "1") none rfl rfl

/-- Claim C7: whenever the handler succeeds, the reading it constructed and
passed to `create_document` (whose sign and content fields are exactly the
response's `sign` and `content`) satisfies the invariant: its sign is one
of the twelve canonical labels and its content is non-empty — shown both
directly and by the invariant-checking store accepting the persisted
reading. -/
theorem reading_invariant (s sc t : String)
    (st : String → Reading → Except String String)
    (d sg sc2 c : String) (id : Option String)
    (h : get_horoscope s sc t st = HoroResult.ok d sg sc2 c id) :
    sg ∈ SIGNS ∧ c ≠ "" ∧
    get_horoscope s sc t invariantCheckingStore =
      HoroResult.ok t sg sc c (some "stored") := by
  unfold get_horoscope at h
  by_cases hm : pyLower s ∈ SIGNS
  · simp only [hm, if_pos] at h
    rw [HoroResult.ok.injEq] at h
    obtain ⟨hd, hsg, hsc, hc, hid⟩ := h
    subst hsg hc
    refine ⟨hm, genContent_ne_empty _ _ _, ?_⟩
    unfold get_horoscope invariantCheckingStore
    simp [hm, genContent_ne_empty]
  · simp [hm] at h

/-- Witness for C7 at concrete inputs: sign "leo" against a succeeding
store. -/
theorem reading_invariant_witness :
    "leo" ∈ SIGNS ∧ genContent "leo" "daily" "2024-01-01" ≠ "" ∧
    get_horoscope "leo" "daily" "2024-01-01" invariantCheckingStore =
      HoroResult.ok "2024-01-01" "leo" "daily"
        (genContent "leo" "daily" "2024-01-01") (some "stored") :=
  reading_invariant "leo" "daily" "2024-01-01" (fun _ _ => Except.ok "1")
    "2024-01-01" "leo" "daily" (genContent "leo" "daily" "2024-01-01")
    (some "1") rfl

/-- Claim C8: `GET /api/readings` always queries the store with the fixed
limit 50 (its result coincides with that of a store whose limit argument
is forced to 50), so under the spec's store contract (at most `limit`
documents returned) the response carries status 200 and at most 50 items. -/
theorem readings_limit (getDocs : String → PyDict → Nat → Except String (List PyDict))
    (q : Option String)
    (hlim : ∀ c f n l, getDocs c f n = Except.ok l → l.length ≤ n) :
    (list_readings getDocs q).status = 200 ∧
    (list_readings getDocs q).items.length ≤ 50 ∧
    list_readings getDocs q = list_readings (fun c f _ => getDocs c f 50) q := by
  refine ⟨?_, ?_, rfl⟩
  · cases hg : getDocs "reading" (buildFilt q) 50 <;> simp [list_readings, hg]
  · cases hg : getDocs "reading" (buildFilt q) 50 with
    | ok docs =>
      simp [list_readings, hg]
      exact hlim "reading" (buildFilt q) 50 docs hg
    | error e => simp [list_readings, hg]

/-- Witness for C8 at concrete inputs: a store returning an empty list
(honouring any limit), queried without a sign filter. -/
theorem readings_limit_witness :
    (list_readings (fun _ _ _ => (Except.ok [] : Except String (List PyDict))) none).status = 200 ∧
    (list_readings (fun _ _ _ => (Except.ok [] : Except String (List PyDict))) none).items.length ≤ 50 ∧
    list_readings (fun _ _ _ => (Except.ok [] : Except String (List PyDict))) none =
      list_readings (fun c f _ =>
        (fun (_ : String) (_ : PyDict) (_ : Nat) =>
          (Except.ok [] : Except String (List PyDict))) c f 50) none :=
  readings_limit (fun _ _ _ => (Except.ok [] : Except String (List PyDict))) none
    (fun _ _ n l hl => by
      injection hl with h
      rw [← h]
      simp)

/-- Claim C9: an empty-string sign query parameter builds the same (empty)
store filter as an absent one, so `GET /api/readings` behaves identically
in the two cases. -/
theorem empty_sign_filter (getDocs : String → PyDict → Nat → Except String (List PyDict)) :
    buildFilt (some "") = buildFilt none ∧ buildFilt (some "") = [] ∧
    list_readings getDocs (some "") = list_readings getDocs none := by
  exact ⟨rfl, rfl, rfl⟩

/-- Claim C10: `POST /api/detect-sign` depends only on the month and day of
the birthdate — for a month/day valid in reference year 2001 the result is
the same for any two birth years and any two optional names. -/
theorem detect_sign_year_name_independent (n₁ n₂ : Option String) (y₁ y₂ m d : Nat)
    (h : validDate 2001 m d = true) :
    detect_sign n₁ y₁ m d = detect_sign n₂ y₂ m d := rfl

/-- Witness for C10 at concrete inputs: July 22 with different years and
names. -/
theorem detect_sign_year_name_independent_witness :
    validDate 2001 7 22 = true ∧
    detect_sign (some "Ada") 1999 7 22 = detect_sign none 2024 7 22 :=
  ⟨by decide, detect_sign_year_name_independent (some "Ada") none 1999 2024 7 22 (by decide)⟩

end Astro
